import Mathlib

/-!
Shallow embedding of the price-enrichment and valuation pipeline of the
Investment-portfolio-manager backend (src/ipm/backend/routes/InvestmentRoutes.js
and src/ipm/backend/models/InvestmentModel.js).

JavaScript numbers that can become Infinity or NaN are modelled by `JsNum`;
plain finite numeric values are modelled by `ℚ`; a nullable/undefined numeric
slot is `Option ℚ`.  JavaScript truthiness of a number (`x` is falsy iff it is
0, NaN, null or undefined) is modelled on `Option ℚ` where `none` covers
null/undefined/NaN-coerced values.  External HTTP calls are modelled as oracle
functions passed in as parameters; a thrown exception is `Except.error`.
-/

namespace IPM

/-- A JavaScript number: a finite value, one of the two infinities, or NaN. -/
inductive JsNum where
  | num (x : ℚ)
  | inf
  | negInf
  | nan
deriving DecidableEq

/-- JavaScript division of two finite numbers: division by zero gives
Infinity, -Infinity or NaN depending on the sign of the numerator. -/
def jsDiv (a b : ℚ) : JsNum :=
  if b = 0 then
    if 0 < a then JsNum.inf else if a < 0 then JsNum.negInf else JsNum.nan
  else JsNum.num (a / b)

/-- Multiplication of a JavaScript number by the positive constant 100
(as in `x * 100`): infinities and NaN are preserved. -/
def jsMul100 : JsNum → JsNum
  | JsNum.num x => JsNum.num (x * 100)
  | JsNum.inf => JsNum.inf
  | JsNum.negInf => JsNum.negInf
  | JsNum.nan => JsNum.nan

/-- Function `calculateMetrics(currentPrice, purchasePrice, quantity)` from
InvestmentRoutes.js lines 83-87:
`profitLoss = (currentPrice - purchasePrice) * quantity`,
`profitLossPercentage = ((currentPrice - purchasePrice) / purchasePrice) * 100`.
The division is not guarded against `purchasePrice = 0`. -/
def calculateMetrics (currentPrice purchasePrice quantity : ℚ) : ℚ × JsNum :=
  ((currentPrice - purchasePrice) * quantity,
   jsMul100 (jsDiv (currentPrice - purchasePrice) purchasePrice))

/-- Coercion `v || null` on a nullable number: a falsy value (null/undefined/0/NaN,
all collapsed into `none` or `some 0`) becomes `none`. -/
def jsOrNull (o : Option ℚ) : Option ℚ :=
  match o with
  | some v => if v = 0 then none else some v
  | none => none

/-- Coercion `v || d` on a nullable number with a plain-number default, as in
`usdToINR || 1` and `existingInvestment.purchasePrice || priceData.price`. -/
def jsOrQ (o : Option ℚ) (d : ℚ) : ℚ :=
  match o with
  | some v => if v = 0 then d else v
  | none => d

/-- Truthiness of a nullable number (`if (cache.rate)` style tests). -/
def numTruthy (o : Option ℚ) : Bool :=
  match o with
  | some v => if v = 0 then false else true
  | none => false

/-- Truthiness of a nullable string (`if (!apiKey)` style tests):
missing or empty is falsy. -/
def strTruthy (o : Option String) : Bool :=
  match o with
  | some s => if s = "" then false else true
  | none => false

/-! ## Exchange-rate cache (`getUSDtoINR`, lines 8-23) -/

/-- The module-level `usdToInrCache` slot `{ rate, timestamp }`. -/
structure RateCache where
  rate : Option ℚ
  timestamp : Nat
deriving DecidableEq

/-- Result of one `getUSDtoINR()` call: the returned rate, the cache slot
after the call, and how many external fetches were issued (0 or 1). -/
structure RateResult where
  rate : Option ℚ
  cache : RateCache
  fetches : Nat
deriving DecidableEq

/-- Function `getUSDtoINR()` (lines 9-23), as a function of the current cache slot, the
current clock, and the outcome of the (at most one) external fetch.  The fetch
yields `data.rates.INR`, which may itself be absent (`Except.ok none`).
* Cache hit: `cache.rate` truthy and `now - timestamp < 3600000` returns the
  cached rate with no fetch.
* Otherwise fetch; on success store `{rate, now}` and return `rate || null`;
  on failure return `cache.rate || null` leaving the slot unchanged. -/
def getUSDtoINR (cache : RateCache) (now : Nat) (fetch : Except Unit (Option ℚ)) :
    RateResult :=
  if numTruthy cache.rate ∧ now - cache.timestamp < 3600000 then
    ⟨cache.rate, cache, 0⟩
  else
    match fetch with
    | Except.ok inr => ⟨jsOrNull inr, ⟨inr, now⟩, 1⟩
    | Except.error _ => ⟨jsOrNull cache.rate, cache, 1⟩

/-! ## Crypto price resolution (`getCryptoPrice`, lines 26-47) -/

/-- The per-coin object of the CoinGecko response, `data[coinId]`;
fields may be absent. -/
structure CoinData where
  usd : Option ℚ
  usd24hChange : Option ℚ
  lastUpdatedAt : Option ℚ
deriving DecidableEq

/-- The quote object built on a successful crypto fetch (lines 37-41),
each field passed through `|| null`. -/
structure CryptoQuote where
  price : Option ℚ
  change24h : Option ℚ
  lastUpdated : Option ℚ
deriving DecidableEq

/-- Lines 37-41: build the returned quote from `data[coinId]`
(`data[coinId]?.usd || null` and friends; an unknown coin id gives an
absent object, hence all fields null). -/
def mkCryptoQuote (d : Option CoinData) : CryptoQuote :=
  ⟨jsOrNull (d.bind CoinData.usd), jsOrNull (d.bind CoinData.usd24hChange),
   jsOrNull (d.bind CoinData.lastUpdatedAt)⟩

/-- The retry loop of `getCryptoPrice` (lines 27-46).  `fetch i` is the outcome
of attempt `i` (an `Except.error` models a thrown axios error, with the JS
error as a `String`).  `remaining = retries - i` counts the loop iterations
left; `sleeps` accumulates the `setTimeout` delays `1000 * (i + 1)` performed
after each failed non-final attempt.  If the loop runs out without the final
iteration throwing (only possible when `retries = 0`), the JS function
returns `undefined`, modelled as `Except.ok none`. -/
def getCryptoPriceGo (fetch : Nat → Except String (Option CoinData)) :
    Nat → Nat → List Nat → Except String (Option CryptoQuote) × List Nat
  | _, 0, sleeps => (Except.ok none, sleeps)
  | i, 1, sleeps =>
    match fetch i with
    | Except.ok d => (Except.ok (some (mkCryptoQuote d)), sleeps)
    | Except.error e => (Except.error e, sleeps)
  | i, r + 2, sleeps =>
    match fetch i with
    | Except.ok d => (Except.ok (some (mkCryptoQuote d)), sleeps)
    | Except.error _ => getCryptoPriceGo fetch (i + 1) (r + 1) (sleeps ++ [1000 * (i + 1)])

/-- Function `getCryptoPrice(coinId, retries = 3)`: run the loop from attempt 0.
Returns the result together with the list of backoff delays slept. -/
def getCryptoPrice (fetch : Nat → Except String (Option CoinData)) (retries : Nat) :
    Except String (Option CryptoQuote) × List Nat :=
  getCryptoPriceGo fetch 0 retries []

/-! ## Stock price resolution (`getStockPrice`, lines 50-80) -/

/-- Object `Global Quote` of the Alpha Vantage response.  `changePercent` is
`Option (Option ℚ)`: the outer `none` means the `10. change percent` field is
absent, in which case `.replace` on `undefined` throws a TypeError; the inner
value is the parsed number (`none` = unparsable, i.e. NaN). -/
structure StockRaw where
  price : Option ℚ
  change : Option ℚ
  changePercent : Option (Option ℚ)
  latestTradingDay : Option ℚ
deriving DecidableEq

/-- The whole Alpha Vantage response body. -/
structure StockApiResp where
  errorMessage : Option String
  globalQuote : Option StockRaw
deriving DecidableEq

/-- The quote object returned by `getStockPrice` (lines 70-75). -/
structure StockQuote where
  price : Option ℚ
  change24h : Option ℚ
  changePercent : Option ℚ
  lastUpdated : Option ℚ
deriving DecidableEq

/-- How `getStockPrice` fails: missing API key (line 53) versus any
thrown/rethrown error from the fetch or response handling. -/
inductive StockErr where
  | configError
  | thrown
deriving DecidableEq

/-- Function `getStockPrice(stockSymbol)` (lines 50-80), as a function of the
`ALPHA_VANTAGE_API_KEY` environment value and the outcome of the (at most one)
external fetch.  Returns the result together with the number of external
fetches issued (0 or 1).
* `!apiKey` (absent or empty) throws the configuration error before any fetch.
* A fetch error, a truthy `Error Message` field, an absent `Global Quote`
  object (field access on `undefined` throws), or an absent
  `10. change percent` field (`.replace` on `undefined` throws) all
  propagate as thrown errors.
* Otherwise the quote is built with `parseFloat(...) || null` on the price and
  change fields and `new Date(...).getTime()` on the trading day. -/
def getStockPrice (apiKey : Option String) (fetch : Except Unit StockApiResp) :
    Except StockErr StockQuote × Nat :=
  if strTruthy apiKey = false then (Except.error StockErr.configError, 0)
  else
    match fetch with
    | Except.error _ => (Except.error StockErr.thrown, 1)
    | Except.ok data =>
      if strTruthy data.errorMessage then (Except.error StockErr.thrown, 1)
      else
        match data.globalQuote with
        | none => (Except.error StockErr.thrown, 1)
        | some raw =>
          match raw.changePercent with
          | none => (Except.error StockErr.thrown, 1)
          | some cp =>
            (Except.ok ⟨jsOrNull raw.price, jsOrNull raw.change, jsOrNull cp,
              raw.latestTradingDay⟩, 1)

/-! ## The Investment record and the request body -/

/-- The persisted Investment document (InvestmentModel.js).  `purchasePrice`
is optional in the schema and is read back with `|| price` fallbacks, so it is
an `Option`; the other numeric fields are written before they are ever read
on the modelled paths. -/
structure Holding where
  id : Nat
  name : String
  symbol : Option String
  quantity : ℚ
  type : String
  amount : ℚ
  purchasePrice : Option ℚ
  currentPrice : ℚ
  profitLoss : ℚ
  profitLossPercentage : JsNum
  lastUpdated : Nat
  notes : Option String
  tags : List String
deriving DecidableEq

/-- The `quantity` field of a request body, abstracted by the only two
operations applied to it: the `!quantity` truthiness test and `parseFloat`.
`falsy` = absent, numeric 0 or empty string; `nanStr` = truthy but not
parseable; `val q` = truthy and parses to `q`. -/
inductive QtyField where
  | falsy
  | nanStr
  | val (q : ℚ)
deriving DecidableEq

/-- Test `!quantity` (lines 125/186). -/
def qtyFalsy : QtyField → Bool
  | QtyField.falsy => true
  | _ => false

/-- Conversion `parseFloat(quantity)` with `isNaN` folded into `none` (lines 144-145).
Only reached on truthy quantities. -/
def parseQty : QtyField → Option ℚ
  | QtyField.falsy => none
  | QtyField.nanStr => none
  | QtyField.val q => some q

/-- The JSON request body of the create and update routes.  A missing or empty
`name`/`type` is modelled as `""` (both are falsy in the `!name || !type`
check). -/
structure ReqBody where
  name : String
  symbol : Option String
  quantity : QtyField
  type : String
  notes : Option String
  tags : List String
deriving DecidableEq

/-- Test `if (!name || !quantity || !type)` (lines 125, 186). -/
def missingFields (req : ReqBody) : Bool :=
  req.name == "" || qtyFalsy req.quantity || req.type == ""

/-- Expression `symbol?.toLowerCase() || name.toLowerCase()` (lines 133, 194, 266). -/
def coinIdOf (symbol : Option String) (name : String) : String :=
  match symbol with
  | some s => if s.toLower = "" then name.toLower else s.toLower
  | none => name.toLower

/-- Expression `symbol?.toUpperCase() || name.toUpperCase()` (lines 136, 197, 269). -/
def stockSymbolOf (symbol : Option String) (name : String) : String :=
  match symbol with
  | some s => if s.toUpper = "" then name.toUpper else s.toUpper
  | none => name.toUpper

/-- Expression `symbol || name` as persisted in the document (lines 154, 227). -/
def symbolOrName (symbol : Option String) (name : String) : String :=
  match symbol with
  | some s => if s = "" then name else s
  | none => name

/-! ## Price resolution as performed inside the routes -/

/-- The type dispatch of lines 129-138 (and 190-199, 263-271): type `Crypto`
runs `getCryptoPrice` with 3 retries, `Stock` runs `getStockPrice`, any
other type leaves the initial `{ price: 0 }`.  The result is the
`priceData.price` value consumed by the caller; `Except.error` models a
thrown error reaching the route's catch block.  (`getCryptoPrice` returning
`undefined` is impossible for 3 retries; reading `.price` on it would throw,
so it is also mapped to `Except.error`.) -/
def resolveRoute (cf : String → Nat → Except String (Option CoinData))
    (apiKey : Option String) (sf : String → Except Unit StockApiResp)
    (ty : String) (symbol : Option String) (name : String) :
    Except Unit (Option ℚ) :=
  if ty = "Crypto" then
    match (getCryptoPrice (cf (coinIdOf symbol name)) 3).1 with
    | Except.error _ => Except.error ()
    | Except.ok none => Except.error ()
    | Except.ok (some q) => Except.ok q.price
  else if ty = "Stock" then
    match (getStockPrice apiKey (sf (stockSymbolOf symbol name))).1 with
    | Except.error _ => Except.error ()
    | Except.ok q => Except.ok q.price
  else Except.ok (some 0)

/-- Outcome of a create/update route call: the HTTP responses used by the
handlers. -/
inductive RouteResult (α : Type) where
  | badRequest (msg : String)
  | notFound (msg : String)
  | ok (a : α)
  | serverError
deriving DecidableEq

/-- The document constructed and saved by the create route (lines 149-165). -/
def mkCreated (req : ReqBody) (newId : Nat) (p q : ℚ) (rate : Option ℚ)
    (now : Nat) : Holding :=
  { id := newId
    name := req.name
    symbol := some (symbolOrName req.symbol req.name)
    quantity := q
    type := req.type
    amount := p * q * jsOrQ rate 1
    purchasePrice := some p
    currentPrice := p
    profitLoss := (calculateMetrics p p q).1
    profitLossPercentage := (calculateMetrics p p q).2
    lastUpdated := now
    notes := req.notes
    tags := req.tags }

/-- Route `POST /api/investments` (lines 121-177), as a function of the fetch
oracles, the resolved exchange rate (the return value of the `getUSDtoINR()`
call on line 130), the clock, the id the store will assign, and the request
body.  Check order follows the source: required fields → price resolution →
`!priceData.price` → quantity parse/positivity → save. -/
def createRoute (cf : String → Nat → Except String (Option CoinData))
    (apiKey : Option String) (sf : String → Except Unit StockApiResp)
    (rate : Option ℚ) (now : Nat) (newId : Nat) (req : ReqBody) :
    RouteResult Holding :=
  if missingFields req then RouteResult.badRequest "Please provide all required fields"
  else
    match resolveRoute cf apiKey sf req.type req.symbol req.name with
    | Except.error _ => RouteResult.serverError
    | Except.ok priceOpt =>
      if numTruthy priceOpt = false then
        RouteResult.notFound (req.type ++ " price not found")
      else
        match parseQty req.quantity with
        | none => RouteResult.badRequest "Invalid quantity"
        | some q =>
          if q ≤ 0 then RouteResult.badRequest "Invalid quantity"
          else RouteResult.ok (mkCreated req newId (priceOpt.getD 0) q rate now)

/-- The fields written by `findByIdAndUpdate` in the update route
(lines 223-239): everything except `purchasePrice`, whose stored value is
untouched; metrics are computed against
`existingInvestment.purchasePrice || priceData.price` (line 219). -/
def applyUpdate (ex : Holding) (req : ReqBody) (p q : ℚ) (rate : Option ℚ)
    (now : Nat) : Holding :=
  { ex with
    name := req.name
    symbol := some (symbolOrName req.symbol req.name)
    quantity := q
    type := req.type
    amount := p * q * jsOrQ rate 1
    currentPrice := p
    profitLoss := (calculateMetrics p (jsOrQ ex.purchasePrice p) q).1
    profitLossPercentage := (calculateMetrics p (jsOrQ ex.purchasePrice p) q).2
    lastUpdated := now
    notes := req.notes
    tags := req.tags }

/-- Route `PUT /api/investments/:id` (lines 182-250).  `existing` is the
`findById` result (line 211).  Check order follows the source: required
fields → price resolution → `!priceData.price` → quantity → existence →
update. -/
def updateRoute (cf : String → Nat → Except String (Option CoinData))
    (apiKey : Option String) (sf : String → Except Unit StockApiResp)
    (rate : Option ℚ) (now : Nat) (req : ReqBody) (existing : Option Holding) :
    RouteResult Holding :=
  if missingFields req then RouteResult.badRequest "Please provide all required fields"
  else
    match resolveRoute cf apiKey sf req.type req.symbol req.name with
    | Except.error _ => RouteResult.serverError
    | Except.ok priceOpt =>
      if numTruthy priceOpt = false then
        RouteResult.notFound (req.type ++ " price not found")
      else
        match parseQty req.quantity with
        | none => RouteResult.badRequest "Invalid quantity"
        | some q =>
          if q ≤ 0 then RouteResult.badRequest "Invalid quantity"
          else
            match existing with
            | none => RouteResult.notFound "Investment not found"
            | some ex =>
              RouteResult.ok (applyUpdate ex req (priceOpt.getD 0) q rate now)

/-! ## Bulk refresh (`GET /update-prices`, lines 255-304) -/

/-- The fields written by `findByIdAndUpdate` in the bulk-refresh loop
(lines 281-291): only the price-derived fields; metrics against
`investment.purchasePrice || priceData.price` (line 277). -/
def applyRefresh (inv : Holding) (p : ℚ) (rate : Option ℚ) (now : Nat) : Holding :=
  { inv with
    amount := p * inv.quantity * jsOrQ rate 1
    currentPrice := p
    profitLoss := (calculateMetrics p (jsOrQ inv.purchasePrice p) inv.quantity).1
    profitLossPercentage := (calculateMetrics p (jsOrQ inv.purchasePrice p) inv.quantity).2
    lastUpdated := now }

/-- One iteration of the bulk-refresh loop body (lines 261-296) for holding
`inv`: resolve a price by the holding's type (any thrown error is caught:
`none`), skip silently if the price is falsy, then persist
(`persistOk inv.id = false` models `findByIdAndUpdate` throwing, also
caught).  `some u` means `u` was persisted and pushed onto `updates`. -/
def refreshOne (cf : String → Nat → Except String (Option CoinData))
    (apiKey : Option String) (sf : String → Except Unit StockApiResp)
    (persistOk : Nat → Bool) (rate : Option ℚ) (now : Nat) (inv : Holding) :
    Option Holding :=
  match resolveRoute cf apiKey sf inv.type inv.symbol inv.name with
  | Except.error _ => none
  | Except.ok priceOpt =>
    if numTruthy priceOpt = false then none
    else if persistOk inv.id then some (applyRefresh inv (priceOpt.getD 0) rate now)
    else none

/-- The sequential `for (const investment of investments)` loop (lines
261-297), threading the `updates` array and the store contents (each
holding's persisted state after its own iteration). -/
def updatePricesGo (cf : String → Nat → Except String (Option CoinData))
    (apiKey : Option String) (sf : String → Except Unit StockApiResp)
    (persistOk : Nat → Bool) (rate : Option ℚ) (now : Nat) :
    List Holding → List Holding → List Holding → List Holding × List Holding
  | [], updates, store => (updates, store)
  | inv :: rest, updates, store =>
    match refreshOne cf apiKey sf persistOk rate now inv with
    | some u => updatePricesGo cf apiKey sf persistOk rate now rest
        (updates ++ [u]) (store ++ [u])
    | none => updatePricesGo cf apiKey sf persistOk rate now rest
        updates (store ++ [inv])

/-- Route `GET /update-prices`: iterate over the fetched holdings with empty
accumulators.  First component: the `updates` list returned to the client;
second: the post-refresh store state, holding by holding. -/
def updatePrices (cf : String → Nat → Except String (Option CoinData))
    (apiKey : Option String) (sf : String → Except Unit StockApiResp)
    (persistOk : Nat → Bool) (rate : Option ℚ) (now : Nat)
    (investments : List Holding) : List Holding × List Holding :=
  updatePricesGo cf apiKey sf persistOk rate now investments [] []

/-! ## Shared helper lemmas -/

/-- Truthiness of a nullable number, unfolded. -/
theorem numTruthy_iff (o : Option ℚ) :
    numTruthy o = true ↔ ∃ v, o = some v ∧ v ≠ 0 := by
  cases o with
  | none => simp [numTruthy]
  | some v =>
    by_cases hv : v = 0 <;> simp [numTruthy, hv]

/-! ## Claim C7: calculateMetrics and the zero cost basis -/

/-- Claim C7 counterexample: at currentPrice 150, purchasePrice 0, quantity 2
the code computes profitLossPercentage = (150 - 0) / 0 * 100 = Infinity, a
JavaScript number; it does not yield undefined/null. -/
theorem calculateMetrics_zero_basis_counterexample :
    (calculateMetrics 150 0 2).2 = JsNum.inf := by
  norm_num [calculateMetrics, jsDiv, jsMul100]

/-- Claim C7 (amended): profitLoss = (currentPrice - purchasePrice) × quantity
and profitLossPercentage = (currentPrice - purchasePrice) / purchasePrice × 100
whenever purchasePrice ≠ 0; when purchasePrice = 0 the unguarded division
yields Infinity, -Infinity or NaN according to the sign of currentPrice —
a numeric value, never undefined/null. -/
theorem calculateMetrics_formula (c p q : ℚ) :
    (calculateMetrics c p q).1 = (c - p) * q ∧
    (p ≠ 0 → (calculateMetrics c p q).2 = JsNum.num ((c - p) / p * 100)) ∧
    (p = 0 → (calculateMetrics c p q).2 =
      if 0 < c then JsNum.inf else if c < 0 then JsNum.negInf else JsNum.nan) := by
  refine ⟨rfl, ?_, ?_⟩
  · intro hp
    simp [calculateMetrics, jsDiv, jsMul100, hp]
  · intro hp
    subst hp
    simp only [calculateMetrics, jsDiv, sub_zero, if_pos rfl]
    split_ifs <;> simp [jsMul100]

/-- Claim C7 witness: the amended formula at (150, 3, 2). -/
theorem calculateMetrics_formula_witness :
    (calculateMetrics 150 3 2).2 = JsNum.num ((150 - 3) / 3 * 100) :=
  (calculateMetrics_formula 150 3 2).2.1 (by decide)

/-! ## Claim C5: the exchange-rate cache -/

/-- Claim C5: cache-hit within TTL returns the cached rate with no fetch;
a miss fetches once, storing rate and clock on success and returning the
stored truthy rate; on fetch failure the previous cache survives and its
rate (or null) is returned; a second call within the TTL of a call that
left a truthy cached rate performs no fetch, so the two calls together
issue at most one fetch. -/
theorem getUSDtoINR_cache_behavior (cache : RateCache) (now : Nat)
    (fetch : Except Unit (Option ℚ)) :
    (numTruthy cache.rate = true → now - cache.timestamp < 3600000 →
      getUSDtoINR cache now fetch = ⟨cache.rate, cache, 0⟩) ∧
    (¬ (numTruthy cache.rate = true ∧ now - cache.timestamp < 3600000) →
      (∀ r : ℚ, fetch = Except.ok (some r) → r ≠ 0 →
        getUSDtoINR cache now fetch = ⟨some r, ⟨some r, now⟩, 1⟩) ∧
      (fetch = Except.error () →
        getUSDtoINR cache now fetch = ⟨jsOrNull cache.rate, cache, 1⟩)) ∧
    (∀ now2 fetch2,
      numTruthy (getUSDtoINR cache now fetch).cache.rate = true →
      now2 - (getUSDtoINR cache now fetch).cache.timestamp < 3600000 →
      (getUSDtoINR (getUSDtoINR cache now fetch).cache now2 fetch2).fetches = 0 ∧
      (getUSDtoINR cache now fetch).fetches +
        (getUSDtoINR (getUSDtoINR cache now fetch).cache now2 fetch2).fetches ≤ 1) := by
  refine ⟨?_, ?_, ?_⟩
  · intro h1 h2
    unfold getUSDtoINR
    rw [if_pos ⟨h1, h2⟩]
  · intro hmiss
    constructor
    · intro r hf hr
      unfold getUSDtoINR
      rw [if_neg hmiss, hf]
      simp [jsOrNull, hr]
    · intro hf
      unfold getUSDtoINR
      rw [if_neg hmiss, hf]
  · intro now2 fetch2 h1 h2
    have hzero :
        (getUSDtoINR (getUSDtoINR cache now fetch).cache now2 fetch2).fetches = 0 := by
      unfold getUSDtoINR
      rw [if_pos ⟨h1, h2⟩]
    refine ⟨hzero, ?_⟩
    rw [hzero]
    have hle : (getUSDtoINR cache now fetch).fetches ≤ 1 := by
      unfold getUSDtoINR
      split
      · exact Nat.zero_le 1
      · split <;> exact Nat.le_refl 1
    omega

/-- Claim C5 witness: a cache hit at rate 83, age 100 ms. -/
theorem getUSDtoINR_cache_behavior_witness :
    getUSDtoINR ⟨some 83, 0⟩ 100 (Except.error ()) = ⟨some 83, ⟨some 83, 0⟩, 0⟩ :=
  (getUSDtoINR_cache_behavior ⟨some 83, 0⟩ 100 (Except.error ())).1 (by decide) (by decide)

/-! ## Claim C9: stock resolution without an API key -/

/-- Claim C9: with a missing (or empty, hence falsy) API key, getStockPrice
fails with the configuration error and performs zero external fetches; and in
general the function performs at most one fetch (no retry). -/
theorem getStockPrice_no_key (apiKey : Option String) (fetch : Except Unit StockApiResp) :
    (strTruthy apiKey = false →
      getStockPrice apiKey fetch = (Except.error StockErr.configError, 0)) ∧
    (getStockPrice apiKey fetch).2 ≤ 1 := by
  constructor
  · intro h
    unfold getStockPrice
    rw [if_pos h]
  · unfold getStockPrice
    split
    · exact Nat.zero_le 1
    · rcases fetch with e | data
      · exact Nat.le_refl 1
      · simp only
        split
        · exact Nat.le_refl 1
        · rcases data.globalQuote with _ | raw
          · exact Nat.le_refl 1
          · simp only
            rcases raw.changePercent with _ | cp <;> exact Nat.le_refl 1

/-- Claim C9 witness: absent key, even with a healthy upstream response
available, yields the configuration error with zero fetches. -/
theorem getStockPrice_no_key_witness :
    getStockPrice none (Except.ok ⟨none, none⟩) = (Except.error StockErr.configError, 0) :=
  (getStockPrice_no_key none (Except.ok ⟨none, none⟩)).1 (by decide)

/-! ## Claim C4: crypto retry and backoff -/

/-- Claim C4 counterexample: in the maximal run (all three attempts fail) the
backoff delays actually slept are 1000 ms and 2000 ms — two gaps between
three attempts; no 3 s delay ever occurs, so the claimed schedule
"1s, 2s, 3s between attempts" is not what the code does. -/
theorem getCryptoPrice_backoff_counterexample :
    (getCryptoPrice (fun _ => Except.error "down") 3).2 = [1000, 2000] ∧
    (getCryptoPrice (fun _ => Except.error "down") 3).2 ≠ [1000, 2000, 3000] := by
  constructor
  · rfl
  · intro h
    simp [getCryptoPrice, getCryptoPriceGo] at h

/-- Claim C4 (amended): crypto resolution makes at most 3 attempts (the result
depends only on the first three fetch outcomes) with linearly increasing
backoff between consecutive attempts — 1 s after the first failure, 2 s after
the second, and no further delay because the third attempt is the last; the
first successful attempt's quote is returned (in particular after two failures
the third attempt's quote), and if all three attempts fail the third attempt's
error propagates. -/
theorem getCryptoPrice_retry (f : Nat → Except String (Option CoinData)) :
    (∀ g, (∀ i, i < 3 → f i = g i) → getCryptoPrice f 3 = getCryptoPrice g 3) ∧
    (∀ d, f 0 = Except.ok d →
      getCryptoPrice f 3 = (Except.ok (some (mkCryptoQuote d)), [])) ∧
    (∀ e d, f 0 = Except.error e → f 1 = Except.ok d →
      getCryptoPrice f 3 = (Except.ok (some (mkCryptoQuote d)), [1000])) ∧
    (∀ e e2 d, f 0 = Except.error e → f 1 = Except.error e2 → f 2 = Except.ok d →
      getCryptoPrice f 3 = (Except.ok (some (mkCryptoQuote d)), [1000, 2000])) ∧
    (∀ e e2 e3, f 0 = Except.error e → f 1 = Except.error e2 → f 2 = Except.error e3 →
      getCryptoPrice f 3 = (Except.error e3, [1000, 2000])) := by
  refine ⟨?_, ?_, ?_, ?_, ?_⟩
  · intro g hg
    have h0 := hg 0 (by norm_num)
    have h1 := hg 1 (by norm_num)
    have h2 := hg 2 (by norm_num)
    rcases hf0 : f 0 with e0 | d0 <;> rcases hf1 : f 1 with e1 | d1 <;>
      rcases hf2 : f 2 with e2 | d2 <;>
      (rw [hf0] at h0; rw [hf1] at h1; rw [hf2] at h2;
       simp [getCryptoPrice, getCryptoPriceGo, hf0, hf1, hf2, h0.symm, h1.symm, h2.symm])
  · intro d h0
    simp [getCryptoPrice, getCryptoPriceGo, h0]
  · intro e d h0 h1
    simp [getCryptoPrice, getCryptoPriceGo, h0, h1]
  · intro e e2 d h0 h1 h2
    simp [getCryptoPrice, getCryptoPriceGo, h0, h1, h2]
  · intro e e2 e3 h0 h1 h2
    simp [getCryptoPrice, getCryptoPriceGo, h0, h1, h2]

/-- A concrete attempt schedule for the C4 witness: the first two attempts
throw, the third returns a priced quote. -/
def cryptoFetchThirdTry : Nat → Except String (Option CoinData) :=
  fun i =>
    if i = 0 then Except.error "timeout1"
    else if i = 1 then Except.error "timeout2"
    else Except.ok (some ⟨some 50000, none, none⟩)

/-- Claim C4 witness: two failures then a success returns the third attempt's
quote after sleeping 1 s and 2 s. -/
theorem getCryptoPrice_retry_witness :
    getCryptoPrice cryptoFetchThirdTry 3 =
      (Except.ok (some (mkCryptoQuote (some ⟨some 50000, none, none⟩))), [1000, 2000]) :=
  (getCryptoPrice_retry cryptoFetchThirdTry).2.2.2.1 "timeout1" "timeout2"
    (some ⟨some 50000, none, none⟩) rfl rfl rfl

/-! ## Inversion lemmas for the route handlers -/

/-- Inversion of a successful create: an `ok` response means validation
passed, a truthy price was resolved, the quantity parsed positive, and the
saved document is exactly `mkCreated`. -/
theorem createRoute_ok_inv (cf : String → Nat → Except String (Option CoinData))
    (apiKey : Option String) (sf : String → Except Unit StockApiResp)
    (rate : Option ℚ) (now newId : Nat) (req : ReqBody) (out : Holding)
    (h : createRoute cf apiKey sf rate now newId req = RouteResult.ok out) :
    ∃ p q, missingFields req = false ∧
      resolveRoute cf apiKey sf req.type req.symbol req.name = Except.ok (some p) ∧
      p ≠ 0 ∧ parseQty req.quantity = some q ∧ 0 < q ∧
      out = mkCreated req newId p q rate now := by
  unfold createRoute at h
  by_cases hm : missingFields req = true
  · rw [if_pos hm] at h
    simp at h
  · rw [if_neg hm] at h
    have hm' : missingFields req = false := by simpa using hm
    cases hres : resolveRoute cf apiKey sf req.type req.symbol req.name with
    | error e => rw [hres] at h; simp at h
    | ok priceOpt =>
      rw [hres] at h
      dsimp only at h
      by_cases hp : numTruthy priceOpt = false
      · rw [if_pos hp] at h
        simp at h
      · rw [if_neg hp] at h
        have htr : numTruthy priceOpt = true := by
          revert hp; cases numTruthy priceOpt <;> simp
        obtain ⟨p, hpo, hp0⟩ := (numTruthy_iff priceOpt).1 htr
        subst hpo
        cases hq : parseQty req.quantity with
        | none => rw [hq] at h; simp at h
        | some q =>
          rw [hq] at h
          dsimp only at h
          by_cases hql : q ≤ 0
          · rw [if_pos hql] at h
            simp at h
          · rw [if_neg hql] at h
            simp only [RouteResult.ok.injEq] at h
            exact ⟨p, q, hm', rfl, hp0, rfl, lt_of_not_le hql, h.symm⟩

/-- Inversion of a successful update: an `ok` response means validation
passed, a truthy price resolved, the quantity parsed positive, the target
exists, and the returned document is exactly `applyUpdate` of it. -/
theorem updateRoute_ok_inv (cf : String → Nat → Except String (Option CoinData))
    (apiKey : Option String) (sf : String → Except Unit StockApiResp)
    (rate : Option ℚ) (now : Nat) (req : ReqBody) (existing : Option Holding)
    (out : Holding)
    (h : updateRoute cf apiKey sf rate now req existing = RouteResult.ok out) :
    ∃ p q ex, missingFields req = false ∧
      resolveRoute cf apiKey sf req.type req.symbol req.name = Except.ok (some p) ∧
      p ≠ 0 ∧ parseQty req.quantity = some q ∧ 0 < q ∧ existing = some ex ∧
      out = applyUpdate ex req p q rate now := by
  unfold updateRoute at h
  by_cases hm : missingFields req = true
  · rw [if_pos hm] at h
    simp at h
  · rw [if_neg hm] at h
    have hm' : missingFields req = false := by simpa using hm
    cases hres : resolveRoute cf apiKey sf req.type req.symbol req.name with
    | error e => rw [hres] at h; simp at h
    | ok priceOpt =>
      rw [hres] at h
      dsimp only at h
      by_cases hp : numTruthy priceOpt = false
      · rw [if_pos hp] at h
        simp at h
      · rw [if_neg hp] at h
        have htr : numTruthy priceOpt = true := by
          revert hp; cases numTruthy priceOpt <;> simp
        obtain ⟨p, hpo, hp0⟩ := (numTruthy_iff priceOpt).1 htr
        subst hpo
        cases hq : parseQty req.quantity with
        | none => rw [hq] at h; simp at h
        | some q =>
          rw [hq] at h
          dsimp only at h
          by_cases hql : q ≤ 0
          · rw [if_pos hql] at h
            simp at h
          · rw [if_neg hql] at h
            cases hex : existing with
            | none => rw [hex] at h; simp at h
            | some ex =>
              rw [hex] at h
              dsimp only at h
              simp only [RouteResult.ok.injEq] at h
              exact ⟨p, q, ex, hm', rfl, hp0, rfl, lt_of_not_le hql, rfl, h.symm⟩

/-! ## Claim C1: create sets cost basis = entry price -/

/-- Claim C1: every successful create persists purchasePrice = currentPrice
= the resolved price, profitLoss = 0 and profitLossPercentage = 0. -/
theorem create_cost_basis_eq_entry (cf : String → Nat → Except String (Option CoinData))
    (apiKey : Option String) (sf : String → Except Unit StockApiResp)
    (rate : Option ℚ) (now newId : Nat) (req : ReqBody) (out : Holding)
    (h : createRoute cf apiKey sf rate now newId req = RouteResult.ok out) :
    out.purchasePrice = some out.currentPrice ∧ out.profitLoss = 0 ∧
    out.profitLossPercentage = JsNum.num 0 ∧
    (∀ p, resolveRoute cf apiKey sf req.type req.symbol req.name =
      Except.ok (some p) → out.currentPrice = p) := by
  obtain ⟨p, q, hm, hres, hp0, hq, hqpos, hout⟩ :=
    createRoute_ok_inv cf apiKey sf rate now newId req out h
  subst hout
  refine ⟨rfl, ?_, ?_, ?_⟩
  · show (calculateMetrics p p q).1 = 0
    simp [calculateMetrics]
  · show (calculateMetrics p p q).2 = JsNum.num 0
    simp [calculateMetrics, jsDiv, jsMul100, hp0]
  · intro p' hres'
    have heq := hres.symm.trans hres'
    simp only [Except.ok.injEq, Option.some.injEq] at heq
    exact heq

/-- Concrete crypto fetch oracle: every attempt succeeds at price 50000. -/
def cryptoFetchOkW : String → Nat → Except String (Option CoinData) :=
  fun _ _ => Except.ok (some ⟨some 50000, none, none⟩)

/-- Concrete stock fetch oracle: upstream unreachable. -/
def stockFetchDownW : String → Except Unit StockApiResp :=
  fun _ => Except.error ()

/-- The spec's running example request: create Bitcoin, quantity 2, Crypto. -/
def bitcoinReqW : ReqBody :=
  ⟨"Bitcoin", none, QtyField.val 2, "Crypto", none, []⟩

/-- The document the create route saves for the Bitcoin example at price
50000 USD, rate 83, clock 0, id 1. -/
def bitcoinCreatedW : Holding :=
  mkCreated bitcoinReqW 1 50000 2 (some 83) 0

/-- Claim C1 witness: the spec's Bitcoin example create succeeds and the
theorem's conclusions hold for the saved document. -/
theorem create_cost_basis_eq_entry_witness :
    bitcoinCreatedW.purchasePrice = some bitcoinCreatedW.currentPrice ∧
    bitcoinCreatedW.profitLoss = 0 ∧
    bitcoinCreatedW.profitLossPercentage = JsNum.num 0 := by
  have hok : createRoute cryptoFetchOkW none stockFetchDownW (some 83) 0 1 bitcoinReqW =
      RouteResult.ok bitcoinCreatedW := by
    rfl
  have hmain := create_cost_basis_eq_entry cryptoFetchOkW none stockFetchDownW
    (some 83) 0 1 bitcoinReqW bitcoinCreatedW hok
  exact ⟨hmain.1, hmain.2.1, hmain.2.2.1⟩

/-! ## Claim C2: update preserves the cost basis -/

/-- Claim C2: a successful update leaves the stored purchasePrice unchanged
(the update object never contains it); profit/loss is computed against the
existing purchasePrice with the newly resolved price as fallback, so when no
prior purchasePrice exists the newly resolved price is the cost basis and
the persisted profit/loss is zero. -/
theorem update_preserves_purchase_price
    (cf : String → Nat → Except String (Option CoinData)) (apiKey : Option String)
    (sf : String → Except Unit StockApiResp) (rate : Option ℚ) (now : Nat)
    (req : ReqBody) (ex out : Holding)
    (h : updateRoute cf apiKey sf rate now req (some ex) = RouteResult.ok out) :
    out.purchasePrice = ex.purchasePrice ∧
    out.profitLoss =
      (out.currentPrice - jsOrQ ex.purchasePrice out.currentPrice) * out.quantity ∧
    (ex.purchasePrice = none →
      out.profitLoss = 0 ∧ out.profitLossPercentage = JsNum.num 0) := by
  obtain ⟨p, q, ex', hm, hres, hp0, hq, hqpos, hex, hout⟩ :=
    updateRoute_ok_inv cf apiKey sf rate now req (some ex) out h
  obtain rfl : ex = ex' := by simpa using hex
  subst hout
  refine ⟨rfl, ?_, ?_⟩
  · simp [applyUpdate, calculateMetrics]
  · intro hnone
    constructor
    · simp [applyUpdate, calculateMetrics, jsOrQ, hnone]
    · simp [applyUpdate, calculateMetrics, jsOrQ, jsDiv, jsMul100, hnone, hp0]

/-- Concrete crypto fetch oracle: every attempt succeeds at price 60000. -/
def cryptoFetch60kW : String → Nat → Except String (Option CoinData) :=
  fun _ _ => Except.ok (some ⟨some 60000, none, none⟩)

/-- The spec's follow-up example: update the Bitcoin holding to quantity 3. -/
def bitcoinUpdateReqW : ReqBody :=
  ⟨"Bitcoin", none, QtyField.val 3, "Crypto", none, []⟩

/-- Claim C2 witness: updating the example Bitcoin holding (cost basis 50000)
at the new price 60000 leaves purchasePrice untouched. -/
theorem update_preserves_purchase_price_witness :
    (applyUpdate bitcoinCreatedW bitcoinUpdateReqW 60000 3 (some 83) 5).purchasePrice =
      bitcoinCreatedW.purchasePrice := by
  have hok : updateRoute cryptoFetch60kW none stockFetchDownW (some 83) 5
      bitcoinUpdateReqW (some bitcoinCreatedW) =
      RouteResult.ok (applyUpdate bitcoinCreatedW bitcoinUpdateReqW 60000 3 (some 83) 5) := by
    rfl
  exact (update_preserves_purchase_price cryptoFetch60kW none stockFetchDownW
    (some 83) 5 bitcoinUpdateReqW bitcoinCreatedW _ hok).1

/-! ## Claim C3: bulk refresh failure isolation -/

/-- The bulk-refresh loop with arbitrary accumulators: updates are appended in
iteration order for the successful holdings, and each holding's stored state
is its own refresh result (unchanged when refresh failed or was skipped). -/
theorem updatePricesGo_spec (cf : String → Nat → Except String (Option CoinData))
    (apiKey : Option String) (sf : String → Except Unit StockApiResp)
    (persistOk : Nat → Bool) (rate : Option ℚ) (now : Nat) (invs : List Holding) :
    ∀ updates store, updatePricesGo cf apiKey sf persistOk rate now invs updates store =
      (updates ++ invs.filterMap (refreshOne cf apiKey sf persistOk rate now),
       store ++ invs.map
         (fun inv => (refreshOne cf apiKey sf persistOk rate now inv).getD inv)) := by
  induction invs with
  | nil => intro updates store; simp [updatePricesGo]
  | cons inv rest ih =>
    intro updates store
    cases hr : refreshOne cf apiKey sf persistOk rate now inv with
    | none => simp [updatePricesGo, hr, ih]
    | some u => simp [updatePricesGo, hr, ih]

/-- Claim C3: the bulk refresh is per-holding best-effort.  The returned list
is exactly the successfully refreshed holdings in the iteration order of the
fetched set (failed or skipped holdings are excluded), and afterwards every
holding's stored state is its own refresh outcome — a failed holding is left
unchanged and its failure neither aborts nor rolls back any other holding. -/
theorem updatePrices_isolation (cf : String → Nat → Except String (Option CoinData))
    (apiKey : Option String) (sf : String → Except Unit StockApiResp)
    (persistOk : Nat → Bool) (rate : Option ℚ) (now : Nat) (invs : List Holding) :
    (updatePrices cf apiKey sf persistOk rate now invs).1 =
      invs.filterMap (refreshOne cf apiKey sf persistOk rate now) ∧
    (updatePrices cf apiKey sf persistOk rate now invs).2 =
      invs.map (fun inv => (refreshOne cf apiKey sf persistOk rate now inv).getD inv) := by
  unfold updatePrices
  rw [updatePricesGo_spec]
  simp

/-! ## Claim C6: the amount formula -/

/-- Inversion of a refreshed holding in the bulk loop: `some u` means a truthy
price resolved, persistence succeeded, and `u` is `applyRefresh`. -/
theorem refreshOne_some_inv (cf : String → Nat → Except String (Option CoinData))
    (apiKey : Option String) (sf : String → Except Unit StockApiResp)
    (persistOk : Nat → Bool) (rate : Option ℚ) (now : Nat) (inv u : Holding)
    (h : refreshOne cf apiKey sf persistOk rate now inv = some u) :
    ∃ p, resolveRoute cf apiKey sf inv.type inv.symbol inv.name = Except.ok (some p) ∧
      p ≠ 0 ∧ persistOk inv.id = true ∧ u = applyRefresh inv p rate now := by
  unfold refreshOne at h
  cases hres : resolveRoute cf apiKey sf inv.type inv.symbol inv.name with
  | error e => rw [hres] at h; simp at h
  | ok priceOpt =>
    rw [hres] at h
    dsimp only at h
    by_cases hp : numTruthy priceOpt = false
    · rw [if_pos hp] at h
      simp at h
    · rw [if_neg hp] at h
      have htr : numTruthy priceOpt = true := by
        revert hp; cases numTruthy priceOpt <;> simp
      obtain ⟨p, hpo, hp0⟩ := (numTruthy_iff priceOpt).1 htr
      subst hpo
      by_cases hpk : persistOk inv.id = true
      · rw [if_pos hpk] at h
        simp only [Option.some.injEq] at h
        exact ⟨p, rfl, hp0, hpk, h.symm⟩
      · rw [if_neg hpk] at h
        simp at h

/-- Claim C6: on every valuation path (create, update, bulk refresh) the
persisted amount equals currentPrice × quantity × exchangeRate when a rate is
available, and equals currentPrice × quantity (rate treated as 1) when the
exchange rate is null. -/
theorem amount_valuation (cf : String → Nat → Except String (Option CoinData))
    (apiKey : Option String) (sf : String → Except Unit StockApiResp)
    (persistOk : Nat → Bool) (rate : Option ℚ) (now newId : Nat) :
    (∀ req out, createRoute cf apiKey sf rate now newId req = RouteResult.ok out →
      (∀ r, rate = some r → r ≠ 0 → out.amount = out.currentPrice * out.quantity * r) ∧
      (rate = none → out.amount = out.currentPrice * out.quantity)) ∧
    (∀ req existing out,
      updateRoute cf apiKey sf rate now req existing = RouteResult.ok out →
      (∀ r, rate = some r → r ≠ 0 → out.amount = out.currentPrice * out.quantity * r) ∧
      (rate = none → out.amount = out.currentPrice * out.quantity)) ∧
    (∀ inv u, refreshOne cf apiKey sf persistOk rate now inv = some u →
      (∀ r, rate = some r → r ≠ 0 → u.amount = u.currentPrice * u.quantity * r) ∧
      (rate = none → u.amount = u.currentPrice * u.quantity)) := by
  refine ⟨?_, ?_, ?_⟩
  · intro req out h
    obtain ⟨p, q, _, _, _, _, _, hout⟩ :=
      createRoute_ok_inv cf apiKey sf rate now newId req out h
    subst hout
    constructor
    · intro r hr hr0
      subst hr
      simp [mkCreated, jsOrQ, hr0]
    · intro hr
      subst hr
      simp [mkCreated, jsOrQ]
  · intro req existing out h
    obtain ⟨p, q, ex, _, _, _, _, _, _, hout⟩ :=
      updateRoute_ok_inv cf apiKey sf rate now req existing out h
    subst hout
    constructor
    · intro r hr hr0
      subst hr
      simp [applyUpdate, jsOrQ, hr0]
    · intro hr
      subst hr
      simp [applyUpdate, jsOrQ]
  · intro inv u h
    obtain ⟨p, _, _, _, hu⟩ :=
      refreshOne_some_inv cf apiKey sf persistOk rate now inv u h
    subst hu
    constructor
    · intro r hr hr0
      subst hr
      simp [applyRefresh, jsOrQ, hr0]
    · intro hr
      subst hr
      simp [applyRefresh, jsOrQ]

/-- Claim C6 witness: the Bitcoin example create with rate 83 persists
amount = 50000 × 2 × 83, i.e. currentPrice × quantity × rate. -/
theorem amount_valuation_witness :
    bitcoinCreatedW.amount = bitcoinCreatedW.currentPrice * bitcoinCreatedW.quantity * 83 :=
  ((amount_valuation cryptoFetchOkW none stockFetchDownW (fun _ => true) (some 83) 0 1).1
    bitcoinReqW bitcoinCreatedW (by rfl)).1 83 rfl (by decide)

/-! ## Claim C8: falsy versus non-positive prices -/

/-- Concrete crypto fetch oracle returning a negative price. -/
def cryptoFetchNegW : String → Nat → Except String (Option CoinData) :=
  fun _ _ => Except.ok (some ⟨some (-5), none, none⟩)

/-- Claim C8 counterexample: a resolved negative price is NOT treated as
price-unavailable — the create request succeeds and persists the holding at
price -5 instead of responding 404.  (Only absent/zero/NaN prices, which are
falsy, take the 404 path.) -/
theorem negative_price_accepted_counterexample :
    createRoute cryptoFetchNegW none stockFetchDownW (some 83) 0 1 bitcoinReqW =
      RouteResult.ok (mkCreated bitcoinReqW 1 (-5) 2 (some 83) 0) ∧
    createRoute cryptoFetchNegW none stockFetchDownW (some 83) 0 1 bitcoinReqW ≠
      RouteResult.notFound "Crypto price not found" := by
  have h1 : createRoute cryptoFetchNegW none stockFetchDownW (some 83) 0 1 bitcoinReqW =
      RouteResult.ok (mkCreated bitcoinReqW 1 (-5) 2 (some 83) 0) := by rfl
  refine ⟨h1, ?_⟩
  rw [h1]
  simp

/-- Claim C8 (amended): a resolved price that is absent, null, zero or NaN
(i.e. falsy) is treated as price-unavailable: create and update respond with
the 404 price-not-found message and persist nothing, and the bulk refresh
skips the holding.  Any nonzero price — negative values included — is treated
as available. -/
theorem falsy_price_unavailable (cf : String → Nat → Except String (Option CoinData))
    (apiKey : Option String) (sf : String → Except Unit StockApiResp)
    (persistOk : Nat → Bool) (rate : Option ℚ) (now newId : Nat) :
    (∀ req priceOpt, missingFields req = false →
      resolveRoute cf apiKey sf req.type req.symbol req.name = Except.ok priceOpt →
      numTruthy priceOpt = false →
      createRoute cf apiKey sf rate now newId req =
        RouteResult.notFound (req.type ++ " price not found")) ∧
    (∀ req existing priceOpt, missingFields req = false →
      resolveRoute cf apiKey sf req.type req.symbol req.name = Except.ok priceOpt →
      numTruthy priceOpt = false →
      updateRoute cf apiKey sf rate now req existing =
        RouteResult.notFound (req.type ++ " price not found")) ∧
    (∀ inv priceOpt,
      resolveRoute cf apiKey sf inv.type inv.symbol inv.name = Except.ok priceOpt →
      numTruthy priceOpt = false →
      refreshOne cf apiKey sf persistOk rate now inv = none) := by
  refine ⟨?_, ?_, ?_⟩
  · intro req priceOpt hm hres hfal
    simp [createRoute, hm, hres, hfal]
  · intro req existing priceOpt hm hres hfal
    simp [updateRoute, hm, hres, hfal]
  · intro inv priceOpt hres hfal
    simp [refreshOne, hres, hfal]

/-- Concrete crypto fetch oracle whose coin object reports usd = 0, which the
`|| null` coercion turns into a null price. -/
def cryptoFetchZeroW : String → Nat → Except String (Option CoinData) :=
  fun _ _ => Except.ok (some ⟨some 0, none, none⟩)

/-- Claim C8 witness: a zero (hence falsy, null after coercion) price makes
the create respond 404 "Crypto price not found". -/
theorem falsy_price_unavailable_witness :
    createRoute cryptoFetchZeroW none stockFetchDownW (some 83) 0 1 bitcoinReqW =
      RouteResult.notFound ("Crypto" ++ " price not found") :=
  (falsy_price_unavailable cryptoFetchZeroW none stockFetchDownW (fun _ => true)
    (some 83) 0 1).1 bitcoinReqW none (by rfl) (by rfl) (by rfl)

/-! ## Claim C10: types other than Crypto and Stock -/

/-- A request with a non-Crypto, non-Stock type and a missing name. -/
def otherReqNoNameW : ReqBody :=
  ⟨"", none, QtyField.val 1, "Other", none, []⟩

/-- Claim C10 counterexample: an Other-typed request is NOT always answered
with the 404 price-not-found response "regardless of the other fields": with
the name field missing the required-fields validation fires first and the
response is 400. -/
theorem other_type_counterexample :
    createRoute cryptoFetchOkW none stockFetchDownW (some 83) 0 1 otherReqNoNameW =
      RouteResult.badRequest "Please provide all required fields" ∧
    createRoute cryptoFetchOkW none stockFetchDownW (some 83) 0 1 otherReqNoNameW ≠
      RouteResult.notFound "Other price not found" := by
  have h1 : createRoute cryptoFetchOkW none stockFetchDownW (some 83) 0 1 otherReqNoNameW =
      RouteResult.badRequest "Please provide all required fields" := by rfl
  refine ⟨h1, ?_⟩
  rw [h1]
  simp

/-- Claim C10 (amended): for every create or update request whose required
fields are present and whose type is neither Crypto nor Stock, no
price-resolution path exists — the price stays at its falsy initial 0, so the
request fails with the 404 price-not-found response regardless of the
remaining fields (even an unparsable quantity, checked only later), and the
bulk refresh always skips such a holding. -/
theorem other_type_no_price_path (cf : String → Nat → Except String (Option CoinData))
    (apiKey : Option String) (sf : String → Except Unit StockApiResp)
    (persistOk : Nat → Bool) (rate : Option ℚ) (now newId : Nat) :
    (∀ req, missingFields req = false → req.type ≠ "Crypto" → req.type ≠ "Stock" →
      createRoute cf apiKey sf rate now newId req =
        RouteResult.notFound (req.type ++ " price not found")) ∧
    (∀ req existing, missingFields req = false → req.type ≠ "Crypto" →
      req.type ≠ "Stock" →
      updateRoute cf apiKey sf rate now req existing =
        RouteResult.notFound (req.type ++ " price not found")) ∧
    (∀ inv, inv.type ≠ "Crypto" → inv.type ≠ "Stock" →
      refreshOne cf apiKey sf persistOk rate now inv = none) := by
  refine ⟨?_, ?_, ?_⟩
  · intro req hm hc hs
    simp [createRoute, resolveRoute, hm, hc, hs, numTruthy]
  · intro req existing hm hc hs
    simp [updateRoute, resolveRoute, hm, hc, hs, numTruthy]
  · intro inv hc hs
    simp [refreshOne, resolveRoute, hc, hs, numTruthy]

/-- A well-formed request with the unsupported type "Other". -/
def goldReqW : ReqBody :=
  ⟨"Gold", none, QtyField.val 1, "Other", none, []⟩

/-- Claim C10 witness: a complete Other-typed create request gets the 404
price-not-found response. -/
theorem other_type_no_price_path_witness :
    createRoute cryptoFetchOkW none stockFetchDownW (some 83) 0 1 goldReqW =
      RouteResult.notFound ("Other" ++ " price not found") :=
  (other_type_no_price_path cryptoFetchOkW none stockFetchDownW (fun _ => true)
    (some 83) 0 1).1 goldReqW (by rfl) (by simp [goldReqW]) (by simp [goldReqW])

end IPM
